import Mathlib

/-!
# Verification of the California housing ETL pipeline

Shallow embedding of the data-transformation core of
`src/california_housing_analysis.py` (functions `process_zillow_data`,
`analyze_rental_data`, `create_final_dataset`) and proofs of the
specification claims about it.

Modelling conventions:
* pandas cell values are Python floats that may be NaN; a cell is modelled as
  `Option ℚ` with `none` for a non-finite/missing value (NaN, and the ±inf
  produced by a float division by zero).
* a wide table (DataFrame) is a list of ordered column labels plus a list of
  rows; each row has a `RegionName` and an association list of cells.
* the Python variable `yoy_change` in `analyze_rental_data` ranges over
  `None | float`, hence it is modelled as `Option (Option ℚ)`:
  outer `none` = Python `None` (absent), `some none` = float NaN.
* Python exceptions are modelled with `Except`; the blanket
  `except Exception: ... return []` of `analyze_rental_data` is the outer
  wrapper `analyzeRentalData` collapsing any error to the empty list.
* date-labelled columns keep their string labels; for the ISO-like labels the
  source relies on (strings starting with "20"), lexicographic string order
  coincides with chronological order, which is exactly what the source's
  `value_cols.sort()` and `max(value_cols)` use.
-/

namespace CaliforniaHousing

/-- Decidable equality for `Except`, so concrete runs can be checked by
`decide`. -/
instance {ε α : Type} [DecidableEq ε] [DecidableEq α] : DecidableEq (Except ε α)
  | .error e, .error f =>
    if h : e = f then .isTrue (by rw [h]) else .isFalse (fun hh => h (by cases hh; rfl))
  | .error _, .ok _ => .isFalse (fun hh => by cases hh)
  | .ok _, .error _ => .isFalse (fun hh => by cases hh)
  | .ok x, .ok y =>
    if h : x = y then .isTrue (by rw [h]) else .isFalse (fun hh => h (by cases hh; rfl))

/-! ### Python string primitives (char-list level) -/

/-- The chars of `pat` are an initial run of `s` (Python `s.startswith(pat)`). -/
def leadsWith : List Char → List Char → Bool
  | [], _ => true
  | _ :: _, [] => false
  | p :: ps, c :: cs => p == c && leadsWith ps cs

/-- `pat` occurs contiguously somewhere in `s` (Python `pat in s`; also pandas
`Series.str.contains(pat)` for a pattern free of regex metacharacters, such as
the literal `", CA"` used by the source). -/
def hasSub : List Char → List Char → Bool
  | pat, [] => pat.isEmpty
  | pat, c :: cs => leadsWith pat (c :: cs) || hasSub pat cs

/-- The region qualifier literal `', CA'` of the source, as characters. -/
def patCA : List Char := ", CA".toList

/-- Python `s.replace(', CA', '')` at the char level: scan left to right,
remove each non-overlapping occurrence of `', CA'`, resuming the scan right
after the removed occurrence (the source only ever calls `replace` with this
pattern and the empty replacement).  On a match the four matched chars are
consumed (the head plus three more); the fallback arm of the inner match is
unreachable because a match of the 4-char pattern forces the tail to have at
least three chars. -/
def removeCA : List Char → List Char
  | [] => []
  | [c] => [c]
  | [c, d] => [c, d]
  | [c, d, e] => [c, d, e]
  | c :: d :: e :: f :: rest =>
    if leadsWith patCA [c, d, e, f] = true then removeCA rest
    else c :: removeCA (d :: e :: f :: rest)

/-- Strip `pat` from the end of `s` if `s` ends with it, else return `s`
unchanged.  This is the spec's wording for forming the display name
("the original name with the qualifier suffix stripped"); compare with
`removeCA`, which is what the source's `str.replace` actually does. -/
def stripTail (pat s : List Char) : List Char :=
  if leadsWith pat.reverse s.reverse then s.take (s.length - pat.length) else s

/-- `', CA' in s` / `Series.str.contains(', CA', na=False)`: the region
membership test of the source (lines 137 and 236). -/
def hasCA (s : String) : Bool := hasSub patCA s.toList

/-- Python `s.replace(', CA', '')` (lines 149 and 243). -/
def removeCAStr (s : String) : String := ⟨removeCA s.toList⟩

/-- Modelled from the spec: the display name obtained by stripping the region
qualifier as a suffix ("matched areas have the suffix stripped to form the
display name").  This is the spec-side definition to be compared with the
source's `removeCAStr`. -/
def specDisplay (s : String) : String := ⟨stripTail patCA s.toList⟩

/-- Python `str(col).startswith('20')`, the source's date-column test. -/
def startsWith20 (s : String) : Bool :=
  match s.toList with
  | '2' :: '0' :: _ => true
  | _ => false

/-- Helper for `uniqueNames`: keep the first occurrence of each name. -/
def uniqueGo (seen : List String) : List String → List String
  | [] => []
  | n :: rest =>
    if n ∈ seen then uniqueGo seen rest else n :: uniqueGo (n :: seen) rest

/-- pandas `Series.unique()`: distinct values in order of first appearance. -/
def uniqueNames (l : List String) : List String := uniqueGo [] l

/-! ### Wide tables (DataFrames) -/

/-- One row of a wide table: the `RegionName` identifier plus the data cells,
keyed by column label.  `none` is a NaN cell. -/
structure Row where
  name : String
  cells : List (String × Option ℚ)
deriving DecidableEq

/-- A wide table: ordered column labels (including non-date columns such as
`RegionName`) and rows. -/
structure Frame where
  columns : List String
  rows : List Row
deriving DecidableEq

/-- `row[col]`: the cell of `r` at column `c`; a column missing from the row is
a NaN cell. -/
def rowVal (r : Row) (c : String) : Option ℚ := (r.cells.lookup c).getD none

/-! ### Small numeric/list helpers used by the pipeline -/

/-- Python `<` on strings at the char level: strict lexicographic order by
code point. -/
def charListLt : List Char → List Char → Bool
  | [], [] => false
  | [], _ :: _ => true
  | _ :: _, [] => false
  | a :: as, b :: bs => a < b || (a == b && charListLt as bs)

/-- Python `a < b` on strings. -/
def strLtB (a b : String) : Bool := charListLt a.toList b.toList

/-- Python `a <= b` on strings (the comparator underlying an ascending sort). -/
def strLeB (a b : String) : Bool := strLtB a b || a == b

/-- Python `list.sort()` on strings: stable ascending lexicographic sort
(extensionally, any stable sort with this comparator). -/
def sortStrings (l : List String) : List String :=
  List.insertionSort (fun a b : String => strLeB a b = true) l

/-- Python `max` on a list of strings (`max(value_cols)` in the source);
`none` on the empty list, where Python raises `ValueError`. -/
def listMaxStr : List String → Option String
  | [] => none
  | s :: rest =>
    some (match listMaxStr rest with
          | none => s
          | some m => if strLtB s m then m else s)

/-- Python `max` on a list of floats known to be finite. -/
def listMaxQ : List ℚ → Option ℚ
  | [] => none
  | q :: rest =>
    some (match listMaxQ rest with
          | none => q
          | some m => if q < m then m else q)

/-- Python `min` on a list of floats known to be finite. -/
def listMinQ : List ℚ → Option ℚ
  | [] => none
  | q :: rest =>
    some (match listMinQ rest with
          | none => q
          | some m => if m < q then m else q)

/-- pandas `Series.mean()` with the default `skipna=True`: the mean of the
non-NaN values, NaN (`none`) if there are none. -/
def pandasMean (vals : List (Option ℚ)) : Option ℚ :=
  let xs := vals.filterMap id
  if xs.isEmpty then none else some (xs.sum / (xs.length : ℚ))

/-- The year-over-year formula `((latest - ya) / ya * 100)` on float cells, as
written (with no guard) at line 247 and line 232 of the source.  A NaN operand
propagates; a zero divisor yields a non-finite float (numpy ±inf/NaN), both
modelled as `none`. -/
def pyDivYoy (latest ya : Option ℚ) : Option ℚ :=
  match latest, ya with
  | some l, some y => if y = 0 then none else some ((l - y) / y * 100)
  | _, _ => none

/-! ### Python exceptions -/

/-- The exceptions the embedded pipeline can raise.  `notFound` carries the
payload of the `ValueError` raised by `process_zillow_data` (the spec's
`NotFoundError`): the missing region and the available region names. -/
inductive PyErr where
  | notFound (region : String) (available : List String)
  | indexError
  | zeroDivision
  | keyError
  | valueError
deriving DecidableEq

/-! ### `process_zillow_data` (Time-Series Normalizer) -/

/-- The transposed time series `ca_zhvi[value_cols].T`: the index is the list
of date-labelled columns in their original column order (the source performs
no sort here), and for each index label the values of the matched region rows. -/
structure TS where
  index : List String
  values : List (List (Option ℚ))
deriving DecidableEq

/-- Lines 113-124 of the source: filter `RegionName == 'California'`; if empty,
raise a `ValueError` naming the region and listing `RegionName.unique()`;
otherwise transpose the date-labelled columns into a time series and return it
together with the untouched ZORI table. -/
def processZillowData (zhvi zori : Frame) : Except PyErr (TS × Frame) :=
  let ca := zhvi.rows.filter (fun r => r.name == "California")
  if ca.isEmpty then
    .error (.notFound "California" (uniqueNames (zhvi.rows.map (fun r => r.name))))
  else
    .ok ({ index := zhvi.columns.filter startsWith20,
           values := (zhvi.columns.filter startsWith20).map
             (fun c => ca.map (fun r => rowVal r c)) }, zori)

/-! ### `analyze_rental_data` (Regional Filter & Ranker, summary path) -/

/-- One element of `rental_summary`.  `yoy_change` is the Python variable of
the same name: `none` = Python `None`, `some none` = a NaN float. -/
structure MetroEntry where
  metro_area : String
  median_rent : Option ℚ
  yoy_change : Option (Option ℚ)
deriving DecidableEq

/-- Comparator `x ≤ y` on rent keys for the sort at line 169 of the source.
A NaN rent (`none`) is placed below every number; Python's comparison sort
gives no meaningful order for NaN keys, so ordering theorems assume NaN-free
rents. -/
def leKey : Option ℚ → Option ℚ → Bool
  | none, _ => true
  | some _, none => false
  | some a, some b => decide (a ≤ b)

/-- The "x precedes-or-ties y" relation of the descending stable sort
`sorted(..., key=lambda x: x['median_rent'], reverse=True)` (line 169). -/
def rentDesc (a b : MetroEntry) : Prop := leKey b.median_rent a.median_rent = true

instance : DecidableRel rentDesc :=
  fun a b => inferInstanceAs (Decidable (leKey b.median_rent a.median_rent = true))

theorem leKey_total (x y : Option ℚ) : leKey x y = true ∨ leKey y x = true := by
  rcases x with _ | a <;> rcases y with _ | b <;> simp [leKey]
  exact le_total a b

theorem leKey_trans {x y z : Option ℚ} (h1 : leKey x y = true) (h2 : leKey y z = true) :
    leKey x z = true := by
  rcases x with _ | a <;> rcases y with _ | b <;> rcases z with _ | c <;>
    simp [leKey] at h1 h2 ⊢
  exact le_trans h1 h2

instance : IsTotal MetroEntry rentDesc :=
  ⟨fun a b => leKey_total b.median_rent a.median_rent⟩

instance : IsTrans MetroEntry rentDesc :=
  ⟨fun _ _ _ h1 h2 => leKey_trans h2 h1⟩

/-- Python's `sorted(rental_summary, key=..., reverse=True)`: a stable sort,
descending by `median_rent` (as a stable sort it is extensionally any stable
sort with the same comparator, here insertion sort). -/
def rankEntries (l : List MetroEntry) : List MetroEntry :=
  List.insertionSort rentDesc l

/-- Lines 140-141 of the source: the date-labelled columns, sorted ascending
(`value_cols.sort()`). -/
def analyzeCols (zori : Frame) : List String :=
  sortStrings (zori.columns.filter startsWith20)

/-- The source's guard `pd.notnull(x) and x > 0` on the year-ago value. -/
def posVal : Option ℚ → Bool
  | some q => decide (0 < q)
  | none => false

/-- The spec's wording "present and non-zero" for the year-ago value. -/
def nonZeroVal : Option ℚ → Bool
  | some q => decide (q ≠ 0)
  | none => false

/-- Loop body of lines 148-166: build the summary record of one metro row.
`yoy_change` is set only when at least 13 sorted periods exist and the
year-ago cell (`value_cols[-13]`) is notnull and strictly positive; the
computed float `((latest - ya) / ya) * 100` is NaN if the latest rent is NaN. -/
def analyzeEntry (vcols : List String) (r : Row) : MetroEntry :=
  let latestRent := rowVal r (vcols.getLastD "")
  let yoy : Option (Option ℚ) :=
    if 13 ≤ vcols.length then
      match rowVal r (vcols.getD (vcols.length - 13) "") with
      | some ya =>
        if 0 < ya then some (Option.map (fun l => (l - ya) / ya * 100) latestRent)
        else none
      | none => none
    else none
  { metro_area := removeCAStr r.name,
    median_rent := latestRent,
    yoy_change := yoy }

/-- The state-level numbers the source computes for its log output
(lines 170-192). -/
structure AnalyzeStats where
  numMetros : ℕ
  avgRent : ℚ
  maxRent : Option ℚ
  minRent : Option ℚ
  avgYoy : Option ℚ
deriving DecidableEq

/-- Body of the `try:` block of `analyze_rental_data` (lines 135-209).
Error sites, in source order: `value_cols[-1]` raises `IndexError` when there
is no date-labelled column, and `sum(median_rents)/len(median_rents)`
(line 186) raises `ZeroDivisionError` when no metro has a notnull latest rent
(in particular when no area matched the filter). -/
def analyzeBody (zori : Frame) : Except PyErr (List MetroEntry × AnalyzeStats) :=
  let ca := zori.rows.filter (fun r => hasCA r.name)
  let vcols := analyzeCols zori
  if vcols.isEmpty then .error .indexError
  else
    let summary := ca.map (analyzeEntry vcols)
    let validYoy := summary.filterMap (fun e => e.yoy_change.bind id)
    let ranked := rankEntries summary
    let medianRents := ranked.filterMap (fun e => e.median_rent)
    let avgYoy :=
      if validYoy.isEmpty then none
      else some (validYoy.sum / (validYoy.length : ℚ))
    if medianRents.isEmpty then .error .zeroDivision
    else
      .ok (ranked,
        { numMetros := ranked.length,
          avgRent := medianRents.sum / (medianRents.length : ℚ),
          maxRent := listMaxQ medianRents,
          minRent := listMinQ medianRents,
          avgYoy := avgYoy })

/-- `analyze_rental_data`: the blanket `except Exception` (lines 211-214)
catches every error from the body, logs, and returns the empty list. -/
def analyzeRentalData (zori : Frame) : List MetroEntry :=
  match analyzeBody zori with
  | .ok (s, _) => s
  | .error _ => []

/-! ### `create_final_dataset` (Aggregator, final-dataset path) -/

/-- One element of `rental_data` (lines 249-253).  `rent_yoy_change` is always
a float here (possibly non-finite): the division has no guard. -/
structure RentalEntry where
  metro_area : String
  median_rent : Option ℚ
  rent_yoy_change : Option ℚ
deriving DecidableEq

/-- Line 245 of the source:
`value_cols[-13] if len(value_cols) >= 13 else value_cols[0]`
(`value_cols` is in original column order here; the caller guarantees it is
non-empty, so the `getD` defaults are never used). -/
def yearAgoCol (vcols : List String) : String :=
  if 13 ≤ vcols.length then vcols.getD (vcols.length - 13) "" else vcols.getD 0 ""

/-- Loop body of lines 242-253: the per-metro record of the final-dataset
path.  The YoY division is applied unconditionally. -/
def createEntry (vcols : List String) (latestCol : String) (r : Row) : RentalEntry :=
  { metro_area := removeCAStr r.name,
    median_rent := rowVal r latestCol,
    rent_yoy_change := pyDivYoy (rowVal r latestCol) (rowVal r (yearAgoCol vcols)) }

/-- pandas `Series.idxmax` + `.loc`: the first entry whose rent attains the
maximum of the non-NaN rents; `none` when every rent is NaN (pandas raises). -/
def idxmaxEntry (l : List RentalEntry) : Option RentalEntry :=
  match listMaxQ (l.filterMap (fun e => e.median_rent)) with
  | none => none
  | some m => l.find? (fun e => e.median_rent == some m)

/-- pandas `Series.idxmin` + `.loc`, analogously. -/
def idxminEntry (l : List RentalEntry) : Option RentalEntry :=
  match listMinQ (l.filterMap (fun e => e.median_rent)) with
  | none => none
  | some m => l.find? (fun e => e.median_rent == some m)

/-- The single integrated row (lines 258-271). -/
structure FinalRecord where
  region : String
  population : Option String
  median_home_value : Option ℚ
  home_value_yoy_change : Option ℚ
  avg_metro_rent : Option ℚ
  avg_rent_yoy_change : Option ℚ
  num_metro_areas : ℕ
  highest_rent_metro : String
  highest_rent : Option ℚ
  lowest_rent_metro : String
  lowest_rent : Option ℚ
  data_date : String
deriving DecidableEq

/-- `create_final_dataset` (lines 224-273).  The census input is the fetched
record as a key/value table (`census_data.get('P1_001N')` is a lookup).  Error
sites: `zhvi_data.iloc[-13]` raises `IndexError` with fewer than 13 periods,
`.iloc[0]` raises `IndexError` on an empty frame, `max([])` raises
`ValueError`, `rental_df['median_rent']` raises `KeyError` on an empty
`rental_df`, and `idxmax`/`idxmin` raise `ValueError` when every rent is NaN.
Date formatting (`strftime`) is modelled as the identity on the label. -/
def createFinalDataset (census : List (String × String)) (zhvi : TS) (zori : Frame) :
    Except PyErr (FinalRecord × List RentalEntry) :=
  if 13 ≤ zhvi.values.length then
    let lastRow := zhvi.values.getLastD []
    let agoRow := zhvi.values.getD (zhvi.values.length - 13) []
    match lastRow.head? with
    | none => .error .indexError
    | some mhv =>
      let hvYoy := pyDivYoy mhv (agoRow.headD none)
      let ca := zori.rows.filter (fun r => hasCA r.name)
      let vcols := zori.columns.filter startsWith20
      match listMaxStr vcols with
      | none => .error .valueError
      | some latestCol =>
        let rentalData := ca.map (createEntry vcols latestCol)
        if rentalData.isEmpty then .error .keyError
        else
          let rents := rentalData.filterMap (fun e => e.median_rent)
          match idxmaxEntry rentalData, idxminEntry rentalData with
          | some hi, some lo =>
            .ok ({ region := "California",
                   population := census.lookup "P1_001N",
                   median_home_value := mhv,
                   home_value_yoy_change := hvYoy,
                   avg_metro_rent := pandasMean (rentalData.map (fun e => e.median_rent)),
                   avg_rent_yoy_change :=
                     pandasMean (rentalData.map (fun e => e.rent_yoy_change)),
                   num_metro_areas := rentalData.length,
                   highest_rent_metro := hi.metro_area,
                   highest_rent := listMaxQ rents,
                   lowest_rent_metro := lo.metro_area,
                   lowest_rent := listMinQ rents,
                   data_date := latestCol }, rentalData)
          | _, _ => .error .valueError
  else .error .indexError

/-! ### Effect traces

The pipeline's I/O surface is made explicit so that purity is a statement, not
a convention: an effectful step returns the list of I/O events it performs.
`create_final_dataset` contains no logging or file call, so its trace is
empty; `save_to_csv` (lines 217-221) is the I/O wrapper that writes files. -/

/-- An observable I/O event of the pipeline. -/
inductive Effect where
  | logMsg (msg : String)
  | fileWrite (path : String)
deriving DecidableEq

/-- `create_final_dataset` together with its (empty) I/O trace: the source
body (lines 224-273) contains no logger or file-system call. -/
def createFinalDatasetRun (census : List (String × String)) (zhvi : TS) (zori : Frame) :
    Except PyErr (FinalRecord × List RentalEntry) × List Effect :=
  (createFinalDataset census zhvi zori, [])

/-- `save_to_csv` (lines 217-221): the file write and the log line it emits.
Included to show the trace type is not vacuous. -/
def saveToCsvEffects (filename : String) : List Effect :=
  [Effect.fileWrite ("output/" ++ filename),
   Effect.logMsg ("Saved " ++ filename ++ " to output directory")]

/-! ## Concrete tables used to instantiate and refute claims -/

set_option maxRecDepth 8000

/-- Thirteen consecutive month labels in ascending (chronological) order. -/
def dateCols13 : List String :=
  ["2023-01","2023-02","2023-03","2023-04","2023-05","2023-06","2023-07",
   "2023-08","2023-09","2023-10","2023-11","2023-12","2024-01"]

/-- A metro row with a positive year-ago rent (2000) and latest rent 2100. -/
def rowSanta : Row :=
  { name := "Santa Maria, CA", cells := [("2023-01", some 2000), ("2024-01", some 2100)] }

/-- A metro row whose year-ago rent is negative (non-zero and notnull). -/
def rowNeg : Row :=
  { name := "Fresno, CA", cells := [("2023-01", some (-100)), ("2024-01", some 100)] }

/-- A metro row whose year-ago rent is exactly zero. -/
def rowZero : Row :=
  { name := "Zero, CA", cells := [("2023-01", some 0), ("2024-01", some 2000)] }

/-- A non-California metro row. -/
def rowNY : Row := { name := "New York, NY", cells := [("2024-01", some 3000)] }

def frameOk : Frame := { columns := "RegionName" :: dateCols13, rows := [rowSanta] }

def frameNeg : Frame := { columns := "RegionName" :: dateCols13, rows := [rowNeg] }

def frameZero : Frame := { columns := "RegionName" :: dateCols13, rows := [rowZero] }

/-- A ZORI table with date columns but no area matching `', CA'`. -/
def frameNoCA : Frame := { columns := "RegionName" :: dateCols13, rows := [rowNY] }

/-- An empty table (used where the second return value is irrelevant). -/
def zoriEmpty : Frame := { columns := [], rows := [] }

/-- The fetched census record. -/
def cenCA : List (String × String) := [("P1_001N", "39538223")]

/-- A 13-period home-value series for one California row. -/
def zhviSmall : TS :=
  { index := dateCols13, values := List.replicate 13 [(some 5 : Option ℚ)] }

/-! ## Helper lemmas -/

theorem charListLt_self (l : List Char) : charListLt l l = false := by
  induction l with
  | nil => rfl
  | cons a as ih => simp [charListLt, ih]

theorem strLtB_ne {a b : String} (h : strLtB a b = true) : a ≠ b := by
  intro heq
  subst heq
  rw [strLtB, charListLt_self] at h
  cases h

theorem leadsWith_self_append (p t : List Char) : leadsWith p (p ++ t) = true := by
  induction p with
  | nil => rfl
  | cons c cs ih => simp [leadsWith, ih]

theorem mem_uniqueGo (n : String) (l : List String) : ∀ seen : List String,
    n ∈ uniqueGo seen l ↔ n ∈ l ∧ n ∉ seen := by
  induction l with
  | nil => intro seen; simp [uniqueGo]
  | cons m rest ih =>
    intro seen
    by_cases hm : m ∈ seen
    · rw [uniqueGo, if_pos hm, ih]
      constructor
      · rintro ⟨h1, h2⟩
        exact ⟨List.mem_cons_of_mem _ h1, h2⟩
      · rintro ⟨h1, h2⟩
        rcases List.mem_cons.mp h1 with rfl | h1
        · exact absurd hm h2
        · exact ⟨h1, h2⟩
    · rw [uniqueGo, if_neg hm]
      constructor
      · intro h
        rcases List.mem_cons.mp h with rfl | h
        · exact ⟨List.mem_cons_self _ _, hm⟩
        · rcases (ih _).mp h with ⟨h1, h2⟩
          simp only [List.mem_cons, not_or] at h2
          exact ⟨List.mem_cons_of_mem _ h1, h2.2⟩
      · rintro ⟨h1, h2⟩
        rcases List.mem_cons.mp h1 with rfl | h1
        · exact List.mem_cons_self _ _
        · by_cases hnm : n = m
          · subst hnm
            exact List.mem_cons_self _ _
          · refine List.mem_cons_of_mem _ ((ih _).mpr ⟨h1, ?_⟩)
            simp [hnm, h2]

theorem mem_uniqueNames (n : String) (l : List String) :
    n ∈ uniqueNames l ↔ n ∈ l := by
  rw [uniqueNames, mem_uniqueGo]
  simp

/-- The `yoy_change` field of a summary entry, written out (definitional). -/
theorem analyzeEntry_yoy_eq (vcols : List String) (r : Row) :
    (analyzeEntry vcols r).yoy_change =
      if 13 ≤ vcols.length then
        match rowVal r (vcols.getD (vcols.length - 13) "") with
        | some ya =>
          if 0 < ya then
            some (Option.map (fun l => (l - ya) / ya * 100) (rowVal r (vcols.getLastD "")))
          else none
        | none => none
      else none := rfl

/-- Inversion of a successful `createFinalDataset` run: the latest column is
the maximal date label, the per-metro list is the mapped loop body, and the
count/mean fields are computed from it. -/
theorem createFinalDataset_ok_parts {census : List (String × String)} {zhvi : TS}
    {zori : Frame} {out : FinalRecord × List RentalEntry}
    (h : createFinalDataset census zhvi zori = .ok out) :
    ∃ lc, listMaxStr (zori.columns.filter startsWith20) = some lc ∧
      out.2 = (zori.rows.filter fun r => hasCA r.name).map
        (createEntry (zori.columns.filter startsWith20) lc) ∧
      out.1.num_metro_areas = out.2.length ∧
      out.1.avg_metro_rent = pandasMean (out.2.map fun e => e.median_rent) ∧
      out.1.data_date = lc := by
  unfold createFinalDataset at h
  dsimp only at h
  split at h
  · split at h
    · cases h
    · split at h
      · cases h
      · rename_i latestCol hmax
        split at h
        · cases h
        · split at h
          · rw [Except.ok.injEq] at h
            subst h
            exact ⟨latestCol, hmax, rfl, rfl, rfl, rfl⟩
          · cases h
  · cases h

/-- Inversion of a successful `analyzeBody` run: the returned summary is the
ranked per-metro list, and the logged statistics are computed from it. -/
theorem analyzeBody_ok_parts {zori : Frame} {s : List MetroEntry} {st : AnalyzeStats}
    (h : analyzeBody zori = .ok (s, st)) :
    s = rankEntries ((zori.rows.filter fun r => hasCA r.name).map
          (analyzeEntry (analyzeCols zori))) ∧
    st.numMetros = s.length ∧
    st.avgRent = (s.filterMap fun e => e.median_rent).sum /
      ((s.filterMap fun e => e.median_rent).length : ℚ) ∧
    st.maxRent = listMaxQ (s.filterMap fun e => e.median_rent) ∧
    st.minRent = listMinQ (s.filterMap fun e => e.median_rent) := by
  unfold analyzeBody at h
  dsimp only at h
  split at h
  · cases h
  · split at h
    · cases h
    · rw [Except.ok.injEq, Prod.mk.injEq] at h
      obtain ⟨hs, hst⟩ := h
      subst hs
      subst hst
      exact ⟨rfl, rfl, rfl, rfl, rfl⟩

/-! ## Claim C9: missing target region -/

/-- C9: for every source table whose rows never name the target region
`"California"`, `process_zillow_data` fails with the not-found error that
names the missing region and carries the available region names
(`RegionName.unique()`: every name of the table appears in the reported list
and vice versa). -/
theorem c9_not_found (zhvi zori : Frame)
    (h : ∀ r ∈ zhvi.rows, r.name ≠ "California") :
    processZillowData zhvi zori =
      .error (.notFound "California" (uniqueNames (zhvi.rows.map fun r => r.name))) ∧
    ∀ n, n ∈ uniqueNames (zhvi.rows.map fun r => r.name) ↔
      n ∈ zhvi.rows.map fun r => r.name := by
  constructor
  · have hca : zhvi.rows.filter (fun r => r.name == "California") = [] := by
      rw [List.filter_eq_nil_iff]
      intro r hr
      simpa using h r hr
    unfold processZillowData
    simp [hca]
  · intro n
    exact mem_uniqueNames n _

/-- A ZHVI table that lacks California (with a duplicate state name, to
exercise the deduplication of `unique()`). -/
def frameTexas : Frame :=
  { columns := ["RegionName", "2024-01"],
    rows := [{ name := "Texas", cells := [("2024-01", some 3)] },
             { name := "Texas", cells := [("2024-01", some 4)] },
             { name := "New York", cells := [("2024-01", some 5)] }] }

/-- C9 witness: the theorem applied to a concrete California-free table; the
reported list is exactly the distinct names in first-appearance order. -/
theorem c9_witness :
    (∀ r ∈ frameTexas.rows, r.name ≠ "California") ∧
    processZillowData frameTexas zoriEmpty =
      .error (.notFound "California" (uniqueNames (frameTexas.rows.map fun r => r.name))) ∧
    uniqueNames (frameTexas.rows.map fun r => r.name) = ["Texas", "New York"] :=
  ⟨by with_unfolding_all decide,
   (c9_not_found frameTexas zoriEmpty (by with_unfolding_all decide)).1,
   by with_unfolding_all decide⟩

/-! ## Claim C2: ordering of the Normalizer output -/

/-- A wide table whose two date-labelled columns appear in reverse
chronological order (both labels are valid dates). -/
def frameDesc : Frame :=
  { columns := ["RegionName", "2024-02-29", "2024-01-31"],
    rows := [{ name := "California",
               cells := [("2024-02-29", some 1), ("2024-01-31", some 2)] }] }

/-- C2 (counterexample): `process_zillow_data` performs no sort, so on a
valid input whose date columns are reversed the output index is exactly the
input column order — not strictly ascending. -/
theorem c2_counterexample :
    processZillowData frameDesc zoriEmpty =
      .ok ({ index := ["2024-02-29", "2024-01-31"],
             values := [[some 1], [some 2]] }, zoriEmpty) ∧
    ¬ List.Pairwise (fun a b => strLtB a b = true) ["2024-02-29", "2024-01-31"] := by
  constructor
  · with_unfolding_all decide
  · with_unfolding_all decide

/-- C2 (amended): the Normalizer's output index is exactly the date-labelled
columns in their input order (no sort is applied); consequently the output is
strictly ascending with no duplicate timestamps iff the input's date-labelled
columns already appear in strictly ascending label order — not regardless of
column order. -/
theorem c2_sorted (zhvi zori : Frame) (out : TS × Frame)
    (h : processZillowData zhvi zori = .ok out) :
    out.1.index = zhvi.columns.filter startsWith20 ∧
    (List.Pairwise (fun a b => strLtB a b = true) (zhvi.columns.filter startsWith20) →
      List.Pairwise (fun a b => strLtB a b = true) out.1.index ∧ out.1.index.Nodup) := by
  unfold processZillowData at h
  dsimp only at h
  split at h
  · cases h
  · rw [Except.ok.injEq] at h
    subst h
    exact ⟨rfl, fun hp => ⟨hp, hp.imp fun hab => strLtB_ne hab⟩⟩

/-- A wide table whose date columns are already chronological. -/
def frameAsc : Frame :=
  { columns := ["RegionName", "2024-01-31", "2024-02-29"],
    rows := [{ name := "California",
               cells := [("2024-01-31", some 2), ("2024-02-29", some 1)] }] }

def tsAsc : TS := { index := ["2024-01-31", "2024-02-29"], values := [[some 2], [some 1]] }

/-- C2 witness: the amended theorem applied to a chronologically ordered
input, whose output is strictly ascending and duplicate-free. -/
theorem c2_witness :
    processZillowData frameAsc zoriEmpty = .ok (tsAsc, zoriEmpty) ∧
    List.Pairwise (fun a b => strLtB a b = true) (frameAsc.columns.filter startsWith20) ∧
    (tsAsc.index = frameAsc.columns.filter startsWith20 ∧
     (List.Pairwise (fun a b => strLtB a b = true) (frameAsc.columns.filter startsWith20) →
       List.Pairwise (fun a b => strLtB a b = true) tsAsc.index ∧ tsAsc.index.Nodup)) :=
  ⟨by with_unfolding_all decide, by with_unfolding_all decide,
   c2_sorted frameAsc zoriEmpty (tsAsc, zoriEmpty) (by with_unfolding_all decide)⟩

/-! ## Claim C6: region filtering and display names -/

theorem leadsWith_of_long (p : List Char) : ∀ (s t : List Char),
    p.length ≤ s.length → leadsWith p (s ++ t) = leadsWith p s := by
  induction p with
  | nil => intro s t _; rfl
  | cons pc ps ih =>
    intro s t hlen
    cases s with
    | nil => simp at hlen
    | cons sc ss =>
      rw [List.cons_append, leadsWith, leadsWith, ih ss t (by simpa using hlen)]

/-- The qualifier has no self-overlap: a failed `leadsWith` on a non-empty
`u` cannot succeed merely by appending the qualifier. -/
theorem leadsWith_patCA_append (u : List Char) (hu : leadsWith patCA u = false)
    (hne : u ≠ []) : leadsWith patCA (u ++ patCA) = false := by
  rcases u with _ | ⟨a, _ | ⟨b, _ | ⟨c, _ | ⟨d, u4⟩⟩⟩⟩
  · exact absurd rfl hne
  · cases ha : ((',' : Char) == a) <;>
      simp [patCA, leadsWith, ha, List.cons_append, List.nil_append]
  · cases ha : ((',' : Char) == a) <;> cases hb : ((' ' : Char) == b) <;>
      simp [patCA, leadsWith, ha, hb, List.cons_append, List.nil_append]
  · cases ha : ((',' : Char) == a) <;> cases hb : ((' ' : Char) == b) <;>
      cases hc : (('C' : Char) == c) <;>
      simp [patCA, leadsWith, ha, hb, hc, List.cons_append, List.nil_append]
  · rw [leadsWith_of_long patCA (a :: b :: c :: d :: u4) patCA (by simp [patCA])]
    exact hu

/-- One scan step of `removeCA` when the qualifier does not match at the
current position: keep the head and continue. -/
theorem removeCA_cons (c : Char) (rest : List Char)
    (h : leadsWith patCA (c :: rest) = false) :
    removeCA (c :: rest) = c :: removeCA rest := by
  match rest with
  | [] => rfl
  | [d] => rfl
  | [d, e] => rfl
  | d :: e :: f :: rest3 =>
    have h4 : leadsWith patCA [c, d, e, f] = false := by
      simpa [patCA, leadsWith] using h
    rw [removeCA, if_neg (by simp [h4])]

/-- Removing every occurrence of the qualifier from a string that contains it
only as its final suffix removes exactly that suffix. -/
theorem removeCA_append (u : List Char) (h : hasSub patCA u = false) :
    removeCA (u ++ patCA) = u := by
  induction u with
  | nil => with_unfolding_all decide
  | cons c u1 ih =>
    rw [hasSub, Bool.or_eq_false_iff] at h
    rw [List.cons_append]
    rw [removeCA_cons c (u1 ++ patCA)
      (by rw [← List.cons_append]; exact leadsWith_patCA_append (c :: u1) h.1 (by simp))]
    rw [ih h.2]

/-- Stripping the qualifier as a suffix from `u ++ qualifier` gives `u`. -/
theorem stripTail_patCA_append (u : List Char) :
    stripTail patCA (u ++ patCA) = u := by
  rw [stripTail, List.reverse_append, leadsWith_self_append]
  simp [List.length_append, List.take_left]

/-- C6 (counterexample): the area name `"A, CA, CA"` matches the qualifier,
but the source's display name removes every occurrence of `', CA'`
(`str.replace`), yielding `"A"`, whereas stripping the qualifier suffix as
the claim states would yield `"A, CA"`. -/
theorem c6_counterexample :
    hasCA "A, CA, CA" = true ∧
    (analyzeEntry ["2024-01"]
      { name := "A, CA, CA", cells := [("2024-01", some 1500)] }).metro_area = "A" ∧
    (createEntry ["2024-01"] "2024-01"
      { name := "A, CA, CA", cells := [("2024-01", some 1500)] }).metro_area = "A" ∧
    specDisplay "A, CA, CA" = "A, CA" ∧
    ("A" : String) ≠ "A, CA" := by
  refine ⟨?_, ?_, ?_, ?_, ?_⟩ <;> with_unfolding_all decide

/-- C6 (amended): an area is kept by both paths iff its name contains the
qualifier `', CA'` as a case-sensitive substring, and a matched area's
display name is the original name with EVERY occurrence of the qualifier
removed (Python `str.replace`), not just a stripped suffix; both notions
agree whenever the qualifier occurs only as the final suffix. -/
theorem c6_display (zori : Frame) (r : Row) (vcols : List String) (latestCol : String) :
    (r ∈ zori.rows.filter (fun x => hasCA x.name) ↔
      r ∈ zori.rows ∧ hasCA r.name = true) ∧
    (analyzeEntry vcols r).metro_area = removeCAStr r.name ∧
    (createEntry vcols latestCol r).metro_area = removeCAStr r.name ∧
    (∀ u : List Char, hasSub patCA u = false →
      removeCAStr ⟨u ++ patCA⟩ = ⟨u⟩ ∧ specDisplay ⟨u ++ patCA⟩ = ⟨u⟩) := by
  refine ⟨List.mem_filter, rfl, rfl, ?_⟩
  intro u hu
  constructor
  · show String.mk (removeCA (String.toList ⟨u ++ patCA⟩)) = ⟨u⟩
    rw [show String.toList ⟨u ++ patCA⟩ = u ++ patCA from rfl, removeCA_append u hu]
  · show String.mk (stripTail patCA (String.toList ⟨u ++ patCA⟩)) = ⟨u⟩
    rw [show String.toList ⟨u ++ patCA⟩ = u ++ patCA from rfl, stripTail_patCA_append]

/-- C6 witness: the amended theorem at a concrete matched row, and the
suffix-only agreement at the name `"Santa Maria, CA"`. -/
theorem c6_witness :
    (rowSanta ∈ frameOk.rows.filter (fun x => hasCA x.name) ↔
      rowSanta ∈ frameOk.rows ∧ hasCA rowSanta.name = true) ∧
    (analyzeEntry dateCols13 rowSanta).metro_area = removeCAStr rowSanta.name ∧
    (removeCAStr ⟨"Santa Maria".toList ++ patCA⟩ = ⟨"Santa Maria".toList⟩ ∧
     specDisplay ⟨"Santa Maria".toList ++ patCA⟩ = ⟨"Santa Maria".toList⟩) :=
  ⟨(c6_display frameOk rowSanta dateCols13 "2024-01").1,
   (c6_display frameOk rowSanta dateCols13 "2024-01").2.1,
   (c6_display frameOk rowSanta dateCols13 "2024-01").2.2.2 "Santa Maria".toList
     (by with_unfolding_all decide)⟩

/-! ## Claim C1: presence and value of the summary-path YoY change -/

/-- C1 (counterexample): a matched row with 13 chronologically ordered
periods whose year-ago rent is -100 — present and non-zero, so the claim
says the YoY change must be present — but the source's guard is
`year_ago_rent > 0`, so the change is absent (`None`): the claimed
"present iff 13 periods and year-ago present and non-zero" fails. -/
theorem c1_counterexample :
    rowNeg ∈ frameNeg.rows ∧ hasCA rowNeg.name = true ∧
    ¬ (((analyzeEntry (analyzeCols frameNeg) rowNeg).yoy_change ≠ none) ↔
       (13 ≤ (analyzeCols frameNeg).length ∧
        nonZeroVal (rowVal rowNeg
          ((analyzeCols frameNeg).getD ((analyzeCols frameNeg).length - 13) "")) = true)) := by
  refine ⟨by with_unfolding_all decide, by with_unfolding_all decide, ?_⟩
  with_unfolding_all decide

/-- C1 (amended): in the rental-summary path, for every input row the
year-over-year change of the area observation is present iff at least 13
chronologically ordered periods exist and the 13th-from-last (year-ago)
value is present and strictly positive (the source tests `> 0`, not merely
non-zero); when present, it is `((latest − yearAgo) / yearAgo) * 100`,
lifted over the possibly-NaN latest rent.  The observation built for the
row is an element of the summary a successful run returns. -/
theorem c1_yoy (zori : Frame) (r : Row) (vcols : List String) (ya : Option ℚ)
    (hv : vcols = analyzeCols zori)
    (hy : ya = rowVal r (vcols.getD (vcols.length - 13) "")) :
    ((analyzeEntry vcols r).yoy_change ≠ none ↔
      13 ≤ vcols.length ∧ posVal ya = true) ∧
    (∀ q : ℚ, 13 ≤ vcols.length → ya = some q → 0 < q →
      (analyzeEntry vcols r).yoy_change =
        some (Option.map (fun l => (l - q) / q * 100) (rowVal r (vcols.getLastD "")))) ∧
    (∀ s st, analyzeBody zori = .ok (s, st) → r ∈ zori.rows → hasCA r.name = true →
      analyzeEntry vcols r ∈ s) := by
  subst hy
  have hyoy : (analyzeEntry vcols r).yoy_change =
      if 13 ≤ vcols.length then
        match rowVal r (vcols.getD (vcols.length - 13) "") with
        | some ya =>
          if 0 < ya then
            some (Option.map (fun l => (l - ya) / ya * 100) (rowVal r (vcols.getLastD "")))
          else none
        | none => none
      else none := rfl
  refine ⟨?_, ?_, ?_⟩
  · by_cases h13 : 13 ≤ vcols.length
    · cases hya : rowVal r (vcols.getD (vcols.length - 13) "") with
      | none =>
        rw [hyoy, if_pos h13, hya]
        simp [posVal]
      | some q =>
        by_cases hq : 0 < q
        · rw [hyoy, if_pos h13, hya]
          simp [posVal, hq, h13]
        · rw [hyoy, if_pos h13, hya]
          simp [posVal, hq]
    · rw [hyoy, if_neg h13]
      simp [h13]
  · intro q h13 hyq hq
    rw [hyoy, if_pos h13, hyq]
    dsimp only
    rw [if_pos hq]
  · intro s st hok hr hca
    obtain ⟨hs, -, -, -, -⟩ := analyzeBody_ok_parts hok
    subst hs
    subst hv
    rw [rankEntries, List.mem_insertionSort]
    exact List.mem_map_of_mem _ (List.mem_filter.mpr ⟨hr, hca⟩)

/-- C1 witness: the amended theorem applied to a concrete matched row with
year-ago rent 2000 and latest rent 2100; the YoY change is present and
equals 5%. -/
theorem c1_witness :
    ((analyzeEntry (analyzeCols frameOk) rowSanta).yoy_change ≠ none ↔
      13 ≤ (analyzeCols frameOk).length ∧
      posVal (rowVal rowSanta
        ((analyzeCols frameOk).getD ((analyzeCols frameOk).length - 13) "")) = true) ∧
    (analyzeEntry (analyzeCols frameOk) rowSanta).yoy_change = some (some 5) :=
  ⟨(c1_yoy frameOk rowSanta _ _ rfl rfl).1, by with_unfolding_all decide⟩

/-! ## Claim C3: behaviour when no area matches the qualifier -/

/-- C3 (counterexample): on a table with date columns but zero areas matching
`', CA'`, `analyze_rental_data` does not raise a `NoDataError`: the body dies
with a `ZeroDivisionError` at the state-statistics average, the blanket
`except` swallows it, and the function returns exactly the silently empty
summary the claim rules out. -/
theorem c3_counterexample :
    analyzeRentalData frameNoCA = [] ∧
    analyzeBody frameNoCA = .error PyErr.zeroDivision := by
  constructor
  · with_unfolding_all decide
  · with_unfolding_all decide

/-- C3 (amended): for every input table in which zero area names match the
qualifier, `analyze_rental_data` returns the empty summary: the body raises
(an `IndexError` if there is no date column, otherwise a `ZeroDivisionError`
at `sum(median_rents)/len(median_rents)`), the blanket `except` catches it
and returns `[]`.  No `NoDataError` naming the region exists in the code. -/
theorem c3_empty (zori : Frame) (h : ∀ r ∈ zori.rows, hasCA r.name = false) :
    analyzeRentalData zori = [] ∧ ∃ e, analyzeBody zori = .error e := by
  have hca : zori.rows.filter (fun r => hasCA r.name) = [] := by
    rw [List.filter_eq_nil_iff]
    intro r hr
    simp [h r hr]
  by_cases hv : (analyzeCols zori).isEmpty = true
  · have hb : analyzeBody zori = .error .indexError := by
      unfold analyzeBody
      dsimp only
      rw [if_pos hv]
    exact ⟨by unfold analyzeRentalData; rw [hb], ⟨_, hb⟩⟩
  · have hb : analyzeBody zori = .error .zeroDivision := by
      unfold analyzeBody
      dsimp only
      rw [if_neg hv, hca]
      simp [rankEntries]
    exact ⟨by unfold analyzeRentalData; rw [hb], ⟨_, hb⟩⟩

/-- C3 witness: the amended theorem applied to the concrete qualifier-free
table. -/
theorem c3_witness :
    (∀ r ∈ frameNoCA.rows, hasCA r.name = false) ∧
    (analyzeRentalData frameNoCA = [] ∧ ∃ e, analyzeBody frameNoCA = .error e) :=
  ⟨by with_unfolding_all decide, c3_empty frameNoCA (by with_unfolding_all decide)⟩

/-! ## Claim C4: the two year-ago policies -/

/-- C4: the year-ago cell the final-dataset loop divides by is the
13th-from-last date-labelled column when at least 13 exist and otherwise the
first date-labelled column — which, when the date columns are in strictly
ascending label order, is the earliest (minimal) available period; the
summary path instead leaves the YoY change absent whenever fewer than 13
periods exist. -/
theorem c4_fallback (vcols : List String) (latestCol : String) (r : Row) (zori : Frame) :
    (13 ≤ vcols.length →
      (createEntry vcols latestCol r).rent_yoy_change =
        pyDivYoy (rowVal r latestCol) (rowVal r (vcols.getD (vcols.length - 13) ""))) ∧
    (vcols.length < 13 →
      (createEntry vcols latestCol r).rent_yoy_change =
        pyDivYoy (rowVal r latestCol) (rowVal r (vcols.getD 0 ""))) ∧
    (List.Pairwise (fun a b => strLtB a b = true) vcols → ∀ c ∈ vcols,
      c = vcols.getD 0 "" ∨ strLtB (vcols.getD 0 "") c = true) ∧
    ((analyzeCols zori).length < 13 →
      ∀ rr : Row, (analyzeEntry (analyzeCols zori) rr).yoy_change = none) ∧
    (∀ census zhvi out, createFinalDataset census zhvi zori = .ok out →
      ∃ lc, listMaxStr (zori.columns.filter startsWith20) = some lc ∧
        out.2 = (zori.rows.filter fun rr => hasCA rr.name).map
          (createEntry (zori.columns.filter startsWith20) lc)) := by
  refine ⟨?_, ?_, ?_, ?_, ?_⟩
  · intro h13
    show pyDivYoy _ (rowVal r (yearAgoCol vcols)) = _
    rw [yearAgoCol, if_pos h13]
  · intro h13
    show pyDivYoy _ (rowVal r (yearAgoCol vcols)) = _
    rw [yearAgoCol, if_neg (not_le.mpr h13)]
  · intro hp c hc
    cases vcols with
    | nil => cases hc
    | cons v vs =>
      rcases List.mem_cons.mp hc with rfl | hc
      · exact Or.inl rfl
      · exact Or.inr ((List.pairwise_cons.mp hp).1 c hc)
  · intro h13 rr
    rw [analyzeEntry_yoy_eq, if_neg (not_le.mpr h13)]
  · intro census zhvi out hok
    obtain ⟨lc, hmax, hmap, -, -, -⟩ := createFinalDataset_ok_parts hok
    exact ⟨lc, hmax, hmap⟩

/-- A ZORI table with a single date column (fewer than 13 periods). -/
def frameShort : Frame :=
  { columns := ["RegionName", "2024-01"], rows := [rowSanta] }

/-- C4 witness: with the 13 columns of `dateCols13` the divisor cell is the
13th-from-last (here the first) column; with the single column of
`frameShort` the fallback divisor is the first column, that column is
minimal, and the summary path leaves YoY absent. -/
theorem c4_witness :
    ((createEntry dateCols13 "2024-01" rowSanta).rent_yoy_change =
      pyDivYoy (rowVal rowSanta "2024-01")
        (rowVal rowSanta (dateCols13.getD (dateCols13.length - 13) ""))) ∧
    ((createEntry ["2024-01"] "2024-01" rowSanta).rent_yoy_change =
      pyDivYoy (rowVal rowSanta "2024-01") (rowVal rowSanta (["2024-01"].getD 0 ""))) ∧
    ("2024-01" = (["2024-01"] : List String).getD 0 "" ∨
      strLtB ((["2024-01"] : List String).getD 0 "") "2024-01" = true) ∧
    (analyzeEntry (analyzeCols frameShort) rowSanta).yoy_change = none :=
  ⟨(c4_fallback dateCols13 "2024-01" rowSanta frameShort).1 (by with_unfolding_all decide),
   (c4_fallback ["2024-01"] "2024-01" rowSanta frameShort).2.1 (by with_unfolding_all decide),
   (c4_fallback ["2024-01"] "2024-01" rowSanta frameShort).2.2.1
     (by with_unfolding_all decide) "2024-01" (by with_unfolding_all decide),
   (c4_fallback dateCols13 "2024-01" rowSanta frameShort).2.2.2.1
     (by with_unfolding_all decide) rowSanta⟩

/-! ## Claim C5: unguarded division in the final-dataset path -/

/-- C5: when the year-ago cell of a row is exactly zero, the final-dataset
loop still applies the YoY division to it with no zero or null guard — the
result is the non-finite float modelled by `none` — whereas the summary path
requires the year-ago value to be notnull and positive before dividing and
leaves the YoY change absent on the same data. -/
theorem c5_unguarded (zori : Frame) (r : Row) (latestCol : String)
    (hsorted : sortStrings (zori.columns.filter startsWith20) =
      zori.columns.filter startsWith20)
    (hya : rowVal r (yearAgoCol (zori.columns.filter startsWith20)) = some 0) :
    (createEntry (zori.columns.filter startsWith20) latestCol r).rent_yoy_change =
      pyDivYoy (rowVal r latestCol) (some 0) ∧
    pyDivYoy (rowVal r latestCol) (some 0) = none ∧
    (analyzeEntry (analyzeCols zori) r).yoy_change = none := by
  have hcols : analyzeCols zori = zori.columns.filter startsWith20 := by
    rw [analyzeCols, hsorted]
  refine ⟨?_, ?_, ?_⟩
  · show pyDivYoy _ (rowVal r (yearAgoCol _)) = _
    rw [hya]
  · cases hl : rowVal r latestCol with
    | none => rfl
    | some l => simp [pyDivYoy]
  · rw [hcols, analyzeEntry_yoy_eq]
    by_cases h13 : 13 ≤ (zori.columns.filter startsWith20).length
    · have hya' : rowVal r ((zori.columns.filter startsWith20).getD
          ((zori.columns.filter startsWith20).length - 13) "") = some 0 := by
        rw [yearAgoCol, if_pos h13] at hya
        exact hya
      rw [if_pos h13, hya']
      dsimp only
      rw [if_neg (lt_irrefl 0)]
    · rw [if_neg h13]

/-- C5 witness: the concrete row with year-ago rent 0 — the final-dataset
loop divides by zero (non-finite result), the summary path yields `None`. -/
theorem c5_witness :
    (sortStrings (frameZero.columns.filter startsWith20) =
      frameZero.columns.filter startsWith20) ∧
    (rowVal rowZero (yearAgoCol (frameZero.columns.filter startsWith20)) = some 0) ∧
    ((createEntry (frameZero.columns.filter startsWith20) "2024-01" rowZero).rent_yoy_change =
       pyDivYoy (rowVal rowZero "2024-01") (some 0) ∧
     pyDivYoy (rowVal rowZero "2024-01") (some 0) = none ∧
     (analyzeEntry (analyzeCols frameZero) rowZero).yoy_change = none) :=
  ⟨by with_unfolding_all decide, by with_unfolding_all decide,
   c5_unguarded frameZero rowZero "2024-01"
     (by with_unfolding_all decide) (by with_unfolding_all decide)⟩

/-! ## Claim C7: descending stable ranking -/

theorem filter_orderedInsert_of_neg (p : MetroEntry → Bool) (a : MetroEntry)
    (hpa : p a = false) :
    ∀ s, (List.orderedInsert rentDesc a s).filter p = s.filter p
  | [] => by simp [List.orderedInsert, hpa]
  | b :: s => by
    rw [List.orderedInsert]
    by_cases hr : rentDesc a b
    · rw [if_pos hr, List.filter_cons, hpa]
      simp
    · rw [if_neg hr, List.filter_cons, List.filter_cons]
      cases hpb : p b <;>
        simp [filter_orderedInsert_of_neg p a hpa s]

theorem filter_orderedInsert_of_pos (p : MetroEntry → Bool) (a : MetroEntry)
    (hpa : p a = true) (hcomp : ∀ b, p b = true → rentDesc a b) :
    ∀ s, (List.orderedInsert rentDesc a s).filter p = a :: s.filter p
  | [] => by simp [List.orderedInsert, hpa]
  | b :: s => by
    rw [List.orderedInsert]
    by_cases hr : rentDesc a b
    · rw [if_pos hr, List.filter_cons, hpa]
      simp
    · have hpb : p b = false := by
        cases hpb : p b
        · rfl
        · exact absurd (hcomp b hpb) hr
      rw [if_neg hr, List.filter_cons, List.filter_cons, hpb]
      simp [filter_orderedInsert_of_pos p a hpa hcomp s]

/-- Stability of the embedded sort: for a predicate that only relates
entries tied under the comparator, filtering commutes with sorting — tied
entries keep their original relative order. -/
theorem filter_insertionSort_eq (p : MetroEntry → Bool)
    (hcomp : ∀ a b, p a = true → p b = true → rentDesc a b) :
    ∀ l, (List.insertionSort rentDesc l).filter p = l.filter p
  | [] => rfl
  | a :: l => by
    rw [List.insertionSort]
    by_cases hpa : p a = true
    · rw [filter_orderedInsert_of_pos p a hpa (fun b hb => hcomp a b hpa hb),
        filter_insertionSort_eq p hcomp l, List.filter_cons, hpa]
      simp
    · have hpa' : p a = false := by
        cases hpaa : p a
        · rfl
        · exact absurd hpaa hpa
      rw [filter_orderedInsert_of_neg p a hpa',
        filter_insertionSort_eq p hcomp l, List.filter_cons, hpa']
      simp

/-- C7: for every list of area observations (whose current values are
non-null, the only case in which Python's comparison sort is meaningful),
the ranked output is sorted descending by current value, is a permutation of
the input, and any two observations with equal current values appear in
their original input order: filtering the output to one rent value returns
exactly the input's entries with that value, in input order. -/
theorem c7_ranking (l : List MetroEntry) (h : ∀ e ∈ l, e.median_rent ≠ none) :
    List.Sorted rentDesc (rankEntries l) ∧
    List.Pairwise (fun a b => ∀ x y : ℚ,
      a.median_rent = some x → b.median_rent = some y → y ≤ x) (rankEntries l) ∧
    (∀ e ∈ rankEntries l, e.median_rent ≠ none) ∧
    (rankEntries l).Perm l ∧
    (∀ q : ℚ, (rankEntries l).filter (fun e => e.median_rent == some q) =
      l.filter (fun e => e.median_rent == some q)) := by
  refine ⟨List.sorted_insertionSort rentDesc l, ?_, ?_,
    List.perm_insertionSort rentDesc l, ?_⟩
  · refine (List.sorted_insertionSort rentDesc l).imp ?_
    intro a b hab x y hx hy
    rw [rentDesc, hx, hy] at hab
    simpa [leKey] using hab
  · intro e he
    exact h e ((List.perm_insertionSort rentDesc l).subset he)
  · intro q
    refine filter_insertionSort_eq _ ?_ l
    intro a b ha hb
    rw [rentDesc, eq_of_beq ha, eq_of_beq hb]
    simp [leKey]

def entA : MetroEntry := { metro_area := "Santa Maria", median_rent := some 36, yoy_change := none }

def entB : MetroEntry := { metro_area := "Fresno", median_rent := some 11, yoy_change := none }

def entC : MetroEntry := { metro_area := "Santa Cruz", median_rent := some 35, yoy_change := none }

def entD : MetroEntry := { metro_area := "Tie", median_rent := some 11, yoy_change := none }

def entList : List MetroEntry := [entA, entB, entC, entD]

/-- C7 witness: the theorem applied to values ordered like the spec's
example [3611.07, 1179.17, 3504.87] (scaled down) plus a tie; the ranked
output is descending and the two tied entries keep their input order. -/
theorem c7_witness :
    (∀ e ∈ entList, e.median_rent ≠ none) ∧
    List.Sorted rentDesc (rankEntries entList) ∧
    (rankEntries entList).Perm entList ∧
    rankEntries entList = [entA, entC, entB, entD] :=
  ⟨by with_unfolding_all decide,
   (c7_ranking entList (by with_unfolding_all decide)).1,
   (c7_ranking entList (by with_unfolding_all decide)).2.2.2.1,
   by with_unfolding_all decide⟩

/-! ## Claim C8: the Aggregator is pure and deterministic -/

/-- C8: `create_final_dataset` is a pure function of its three inputs: its
body performs no I/O (its effect trace is empty), and two invocations on
equal inputs return identical results.  The inputs are immutable values in
this embedding, so they are left unchanged by construction. -/
theorem c8_pure (c1 c2 : List (String × String)) (z1 z2 : TS) (r1 r2 : Frame)
    (hc : c1 = c2) (hz : z1 = z2) (hr : r1 = r2) :
    createFinalDatasetRun c1 z1 r1 = createFinalDatasetRun c2 z2 r2 ∧
    (createFinalDatasetRun c1 z1 r1).2 = [] := by
  subst hc
  subst hz
  subst hr
  exact ⟨rfl, rfl⟩

/-- C8 witness: two runs on the same concrete inputs agree, the trace is
empty, and the run actually produces a record (the inputs are not degenerate). -/
theorem c8_witness :
    createFinalDatasetRun cenCA zhviSmall frameOk =
      createFinalDatasetRun cenCA zhviSmall frameOk ∧
    (createFinalDatasetRun cenCA zhviSmall frameOk).2 = [] ∧
    (createFinalDataset cenCA zhviSmall frameOk).isOk = true :=
  ⟨(c8_pure cenCA cenCA zhviSmall zhviSmall frameOk frameOk rfl rfl rfl).1,
   (c8_pure cenCA cenCA zhviSmall zhviSmall frameOk frameOk rfl rfl rfl).2,
   by with_unfolding_all decide⟩

/-! ## Claim C10: counted areas vs. aggregated areas -/

def rowMixA : Row := { name := "Santa Maria, CA", cells := [("2024-01", some 2000)] }

def rowMixB : Row := { name := "Fresno, CA", cells := [("2024-01", some 1000)] }

/-- A matched metro whose latest rent is NaN (no cell for the latest month). -/
def rowMixC : Row := { name := "Madera, CA", cells := [] }

def frameMix : Frame :=
  { columns := ["RegionName", "2024-01"], rows := [rowMixA, rowMixB, rowMixC] }

def mixSummary : List MetroEntry :=
  [{ metro_area := "Santa Maria", median_rent := some 2000, yoy_change := none },
   { metro_area := "Fresno", median_rent := some 1000, yoy_change := none },
   { metro_area := "Madera", median_rent := none, yoy_change := none }]

def mixStats : AnalyzeStats :=
  { numMetros := 3, avgRent := 1500, maxRent := some 2000, minRent := some 1000,
    avgYoy := none }

/-- C10: in both rental paths the reported number of metro areas counts every
area whose name matched the qualifier — including areas whose latest rent is
null — while the rent aggregates are computed only over the areas with a
non-null latest rent; on the concrete mixed table three areas are counted but
the average is over two values. -/
theorem c10_null_counts :
    (∀ zori s st, analyzeBody zori = .ok (s, st) →
      st.numMetros = (zori.rows.filter fun r => hasCA r.name).length ∧
      st.avgRent =
        ((zori.rows.filter fun r => hasCA r.name).filterMap
            (fun r => rowVal r ((analyzeCols zori).getLastD ""))).sum /
          (((zori.rows.filter fun r => hasCA r.name).filterMap
            (fun r => rowVal r ((analyzeCols zori).getLastD ""))).length : ℚ)) ∧
    (∀ census zhvi zori out, createFinalDataset census zhvi zori = .ok out →
      out.1.num_metro_areas = (zori.rows.filter fun r => hasCA r.name).length ∧
      ∃ lc, listMaxStr (zori.columns.filter startsWith20) = some lc ∧
        out.1.avg_metro_rent = pandasMean ((zori.rows.filter fun r => hasCA r.name).map
          (fun r => rowVal r lc))) ∧
    (analyzeBody frameMix = .ok (mixSummary, mixStats) ∧
      mixStats.numMetros = 3 ∧
      ((frameMix.rows.filter fun r => hasCA r.name).filterMap
        (fun r => rowVal r ((analyzeCols frameMix).getLastD ""))).length = 2 ∧
      (2 : ℕ) < 3) := by
  refine ⟨?_, ?_, ?_⟩
  · intro zori s st hok
    obtain ⟨hs, hnum, havg, -, -⟩ := analyzeBody_ok_parts hok
    have hperm : (s.filterMap fun e => e.median_rent).Perm
        (((zori.rows.filter fun r => hasCA r.name).map
          (analyzeEntry (analyzeCols zori))).filterMap fun e => e.median_rent) := by
      rw [hs, rankEntries]
      exact List.Perm.filterMap _ (List.perm_insertionSort _ _)
    have heq : (((zori.rows.filter fun r => hasCA r.name).map
          (analyzeEntry (analyzeCols zori))).filterMap fun e => e.median_rent) =
        (zori.rows.filter fun r => hasCA r.name).filterMap
          (fun r => rowVal r ((analyzeCols zori).getLastD "")) := by
      rw [List.filterMap_map]
      rfl
    constructor
    · rw [hnum, hs, rankEntries, List.length_insertionSort, List.length_map]
    · rw [havg, hperm.sum_eq, hperm.length_eq, heq]
  · intro census zhvi zori out hok
    obtain ⟨lc, hmax, hmap, hnum, havg, -⟩ := createFinalDataset_ok_parts hok
    refine ⟨by rw [hnum, hmap, List.length_map], lc, hmax, ?_⟩
    rw [havg, hmap, List.map_map]
    rfl
  · refine ⟨by with_unfolding_all decide, by with_unfolding_all decide,
      by with_unfolding_all decide, by with_unfolding_all decide⟩

def mixRental : List RentalEntry :=
  [{ metro_area := "Santa Maria", median_rent := some 2000, rent_yoy_change := some 0 },
   { metro_area := "Fresno", median_rent := some 1000, rent_yoy_change := some 0 },
   { metro_area := "Madera", median_rent := none, rent_yoy_change := none }]

def mixFinal : FinalRecord :=
  { region := "California", population := some "39538223",
    median_home_value := some 5, home_value_yoy_change := some 0,
    avg_metro_rent := some 1500, avg_rent_yoy_change := some 0,
    num_metro_areas := 3, highest_rent_metro := "Santa Maria",
    highest_rent := some 2000, lowest_rent_metro := "Fresno",
    lowest_rent := some 1000, data_date := "2024-01" }

/-- C10 witness: both universal parts of the theorem applied to the concrete
mixed table: three areas are counted in each path while the mean is taken
over the two non-null rents (2000 and 1000, mean 1500). -/
theorem c10_witness :
    analyzeBody frameMix = .ok (mixSummary, mixStats) ∧
    (mixStats.numMetros = (frameMix.rows.filter fun r => hasCA r.name).length ∧
     mixStats.avgRent =
       ((frameMix.rows.filter fun r => hasCA r.name).filterMap
           (fun r => rowVal r ((analyzeCols frameMix).getLastD ""))).sum /
         (((frameMix.rows.filter fun r => hasCA r.name).filterMap
           (fun r => rowVal r ((analyzeCols frameMix).getLastD ""))).length : ℚ)) ∧
    createFinalDataset cenCA zhviSmall frameMix = .ok (mixFinal, mixRental) ∧
    (mixFinal.num_metro_areas = (frameMix.rows.filter fun r => hasCA r.name).length ∧
     ∃ lc, listMaxStr (frameMix.columns.filter startsWith20) = some lc ∧
       mixFinal.avg_metro_rent = pandasMean
         ((frameMix.rows.filter fun r => hasCA r.name).map (fun r => rowVal r lc))) :=
  ⟨by with_unfolding_all decide,
   c10_null_counts.1 frameMix mixSummary mixStats (by with_unfolding_all decide),
   by with_unfolding_all decide,
   c10_null_counts.2.1 cenCA zhviSmall frameMix (mixFinal, mixRental)
     (by with_unfolding_all decide)⟩

end CaliforniaHousing
